import Mathlib

/-
Verification of the pybard play model and parser (bard/play.py).

The Python classes Play / Act / Scene / Speech / Direction are embedded as
Lean structures and inductives.  Python's in-place mutation of `self` is
embedded as explicit state passing: a method that mutates a Scene becomes a
function `Scene → ... → Scene`; a method that can raise (ValueError from
Scene.add_line, IndexError from `xs[-1]` on an empty list, TypeError from
`functools.reduce` on an empty sequence) returns an `Option`, where `none`
is the raised exception.  Python ints arising here are non-negative
(act/scene/line numbers parsed from digits), so they are embedded as Nat.
-/

namespace Bard

/-- A line of a Speech: Python stores either a plain `str` or a `Direction`
object (which wraps a single string) in `Speech.lines`. -/
inductive Line where
  | str (s : String)
  | direction (d : String)
deriving DecidableEq

/-- The Speech class: speaker, lines, act_no, scene_no, line_no
(bard/play.py, class Speech). -/
structure Speech where
  speaker : String
  lines : List Line
  act_no : Nat
  scene_no : Nat
  line_no : Nat
deriving DecidableEq

/-- DramaticEvent has exactly two concrete subclasses in the source:
Direction (wrapping one string) and Speech. -/
inductive DramaticEvent where
  | direction (d : String)
  | speech (sp : Speech)
deriving DecidableEq

/-- The Scene class fields: title, act_no, scene_no, events. -/
structure Scene where
  title : String
  act_no : Nat
  scene_no : Nat
  events : List DramaticEvent
deriving DecidableEq

/-- The Act class fields: act_no, scenes. -/
structure Act where
  act_no : Nat
  scenes : List Scene
deriving DecidableEq

/-- The Play class fields used by the pure model: title, url, acts.
The lazily fetched `_full_url` and all network calls are out of scope. -/
structure Play where
  title : String
  url : String
  acts : List Act
deriving DecidableEq

/-- Model of `scene_title_regex = re.compile("SCENE ([IVX]+)\\.(.*)")` used
with `.match` (anchored at the start, prefix match).  The character class
`[IVX]+` is greedy, and since `.` is not in the class, greediness with
backtracking is exactly "maximal run of I/V/X characters followed by a
literal dot".  The group `(.*)` captures the remaining characters up to the
first newline (Python `.` does not match a newline).  Returns the two
captured groups on success. -/
def sceneTitleMatch (t : String) : Option (String × String) :=
  match t.toList with
  | 'S' :: 'C' :: 'E' :: 'N' :: 'E' :: ' ' :: rest =>
    match rest.span (fun c => c == 'I' || c == 'V' || c == 'X') with
    | ([], _) => none
    | (rn, '.' :: r2) => some (String.mk rn, String.mk (r2.takeWhile (fun c => c != '\n')))
    | (_, _) => none
  | _ => none

/-- Scene.__init__: matches the title against scene_title_regex; on a match
the second captured group is stored as the title verbatim (the source does
NOT strip it), otherwise the raw title is stored.  events starts empty. -/
def Scene.init (title : String) (act_no : Nat) (scene_no : Nat) : Scene :=
  match sceneTitleMatch title with
  | some (_, value) => { title := value, act_no := act_no, scene_no := scene_no, events := [] }
  | none => { title := title, act_no := act_no, scene_no := scene_no, events := [] }

/-- Python `xs[-1]` on a list, applying a total update to the last element;
`none` is the IndexError raised when the list is empty. -/
def updateLast {α : Type} (l : List α) (f : α → α) : Option (List α) :=
  match l.getLast? with
  | none => none
  | some x => some (l.dropLast ++ [f x])

/-- Python `xs[-1]` followed by a fallible update of the last element;
`none` is either the IndexError on an empty list or the inner failure. -/
def updateLastM {α : Type} (l : List α) (f : α → Option α) : Option (List α) :=
  match l.getLast? with
  | none => none
  | some x => (f x).map (fun y => l.dropLast ++ [y])

/-- Scene.add_line, kept at the statement granularity of the source: the
result is the post-call state of `self` paired with the raised error, if
any.  The source raises `ValueError("empty events list")` — the error the
design documents call StructuralParseError — before touching `self.events`,
so in the error case the scene is returned unchanged.  Otherwise, if the
last event is not a Speech a new Speech with the sentinel speaker
"Unknown" and the single line is appended; if it is a Speech, the line is
appended to that Speech's lines. -/
def Scene.add_lineTrace (s : Scene) (line : Line) (line_no : Nat) : Scene × Option String :=
  match s.events.getLast? with
  | none => (s, some "empty events list")
  | some (.speech sp) =>
    ({ s with events := s.events.dropLast ++ [.speech { sp with lines := sp.lines ++ [line] }] }, none)
  | some (.direction _) =>
    ({ s with events := s.events ++ [.speech { speaker := "Unknown", lines := [line], act_no := s.act_no, scene_no := s.scene_no, line_no := line_no }] }, none)

/-- Scene.add_line as seen by callers: `none` when the ValueError is
raised. -/
def Scene.add_line (s : Scene) (line : Line) (line_no : Nat) : Option Scene :=
  match Scene.add_lineTrace s line line_no with
  | (_, some _) => none
  | (s2, none) => some s2

/-- Scene.add_direction: an empty event list or a trailing Direction gets a
new top-level Direction event; a trailing Speech gets the Direction
appended to its lines instead. -/
def Scene.add_direction (s : Scene) (d : String) : Scene :=
  match s.events.getLast? with
  | none => { s with events := s.events ++ [.direction d] }
  | some (.direction _) => { s with events := s.events ++ [.direction d] }
  | some (.speech sp) =>
    { s with events := s.events.dropLast ++ [.speech { sp with lines := sp.lines ++ [.direction d] }] }

/-- Scene.add_speech: appends a new Speech with the given speaker, the
first line as its only line, the scene's act and scene numbers, and the
given line number. -/
def Scene.add_speech (s : Scene) (speaker : String) (line_no : Nat) (first_line : Line) : Scene :=
  { s with events := s.events ++ [.speech { speaker := speaker, lines := [first_line], act_no := s.act_no, scene_no := s.scene_no, line_no := line_no }] }

/-- Act.add_scene: scene_no is previous last scene_no + 1, or 1 for the
first scene; the new Scene goes through Scene.__init__. -/
def Act.add_scene (a : Act) (title : String) : Act :=
  let scene_no := match a.scenes.getLast? with | some sc => sc.scene_no + 1 | none => 1
  { a with scenes := a.scenes ++ [Scene.init title a.act_no scene_no] }

/-- Act.add_line delegates to `self.scenes[-1].add_line`. -/
def Act.add_line (a : Act) (line : Line) (line_no : Nat) : Option Act :=
  (updateLastM a.scenes (fun sc => Scene.add_line sc line line_no)).map (fun l => { a with scenes := l })

/-- Act.add_direction delegates to `self.scenes[-1].add_direction`. -/
def Act.add_direction (a : Act) (d : String) : Option Act :=
  (updateLast a.scenes (fun sc => Scene.add_direction sc d)).map (fun l => { a with scenes := l })

/-- Act.add_speech delegates to `self.scenes[-1].add_speech`. -/
def Act.add_speech (a : Act) (speaker : String) (line_no : Nat) (first_line : Line) : Option Act :=
  (updateLast a.scenes (fun sc => Scene.add_speech sc speaker line_no first_line)).map (fun l => { a with scenes := l })

/-- Play.add_act: act_no is previous last act_no + 1, or 1 for the first
act; the new Act starts with no scenes. -/
def Play.add_act (p : Play) : Play :=
  let n := match p.acts.getLast? with | some a => a.act_no + 1 | none => 1
  { p with acts := p.acts ++ [{ act_no := n, scenes := [] }] }

/-- Play.add_scene delegates to `self.acts[-1].add_scene`. -/
def Play.add_scene (p : Play) (title : String) : Option Play :=
  (updateLast p.acts (fun a => Act.add_scene a title)).map (fun l => { p with acts := l })

/-- Play.add_direction delegates to `self.acts[-1].add_direction`. -/
def Play.add_direction (p : Play) (d : String) : Option Play :=
  (updateLastM p.acts (fun a => Act.add_direction a d)).map (fun l => { p with acts := l })

/-- Play.add_line delegates to `self.acts[-1].add_line`. -/
def Play.add_line (p : Play) (line : Line) (line_no : Nat) : Option Play :=
  (updateLastM p.acts (fun a => Act.add_line a line line_no)).map (fun l => { p with acts := l })

/-- Play.add_speech delegates to `self.acts[-1].add_speech`. -/
def Play.add_speech (p : Play) (speaker : String) (line_no : Nat) (first_line : Line) : Option Play :=
  (updateLastM p.acts (fun a => Act.add_speech a speaker line_no first_line)).map (fun l => { p with acts := l })

/-- Python `int()` on a non-empty string of ASCII digits. -/
def digitsToNat (ds : List Char) : Nat :=
  ds.foldl (fun a c => a * 10 + (c.toNat - 48)) 0

/-- Model of `speech_pattern = re.compile("(\\d+)\\.(\\d+)\\.(\\d+)")` used
with `.match` (anchored prefix match).  Each `\d+` is a greedy run of
digits; since `.` is not a digit, greediness is exactly "maximal digit
run".  Any trailing text after the third digit run is ignored (prefix
match).  Returns `int()` of the three captured groups.  Only ASCII digits
are modelled. -/
def speechPatternMatch (s : String) : Option (Nat × Nat × Nat) :=
  match s.toList.span Char.isDigit with
  | ([], _) => none
  | (d1, '.' :: r1) =>
    match r1.span Char.isDigit with
    | ([], _) => none
    | (d2, '.' :: r2) =>
      match r2.span Char.isDigit with
      | ([], _) => none
      | (d3, _) => some (digitsToNat d1, digitsToNat d2, digitsToNat d3)
    | (_, _) => none
  | (_, _) => none

/-- Python `str.strip()`: whitespace dropped from both ends. -/
def pyStrip (s : String) : String :=
  String.mk (((s.toList.dropWhile Char.isWhitespace).reverse.dropWhile Char.isWhitespace).reverse)

/-- One HTML event of the parser loop: an h3 header, an italic element, or
an anchor with an optional `name` attribute.  Each carries its raw text;
the loop strips it. -/
inductive TagEvent where
  | h3 (txt : String)
  | ital (txt : String)
  | anchor (nameAttr : Option String) (txt : String)
deriving DecidableEq

/-- The parser loop state of Play.parse_play: the play being built and the
pending `new_speaker` variable. -/
structure ParseState where
  play : Play
  new_speaker : Option String
deriving DecidableEq

/-- One iteration of the Play.parse_play loop.  `content = tag.text.strip()`
is modelled by pyStrip.  h3 text starting with "ACT" adds an act,
starting with "SCENE" adds a scene titled by the stripped content, other h3
text is ignored.  Italic text becomes a direction.  An anchor without a
`name` attribute is ignored.  An anchor whose name matches the
act.scene.line pattern opens a Speech for the pending speaker (clearing it)
or, with no pending speaker, appends its content as a line at the parsed
line number; in both cases only the third captured integer is used.  An
anchor whose name does not match makes its content the new pending
speaker, overwriting any previous one. -/
def parse_step (st : ParseState) (ev : TagEvent) : Option ParseState :=
  match ev with
  | .h3 txt =>
    let content := pyStrip txt
    if content.startsWith "ACT" then some { st with play := st.play.add_act }
    else if content.startsWith "SCENE" then
      (st.play.add_scene content).map (fun p => { st with play := p })
    else some st
  | .ital txt => (st.play.add_direction (pyStrip txt)).map (fun p => { st with play := p })
  | .anchor nameAttr txt =>
    let content := pyStrip txt
    match nameAttr with
    | none => some st
    | some nm =>
      match speechPatternMatch nm with
      | some (_, _, line_no) =>
        match st.new_speaker with
        | some sp =>
          (st.play.add_speech sp line_no (.str content)).map (fun p => { play := p, new_speaker := none })
        | none => (st.play.add_line (.str content) line_no).map (fun p => { st with play := p })
      | none => some { st with new_speaker := some content }

/-- Play.parse_play over a whole event sequence: fold parse_step from an
empty pending speaker; a leftover pending speaker is discarded at the
end. -/
def parse_play (p : Play) (events : List TagEvent) : Option Play :=
  (events.foldlM parse_step { play := p, new_speaker := none }).map ParseState.play

/-- Python dicts mapping speaker names to counts, as produced by the
source: association lists looked up with default 0 (`d.get(k, 0)`). -/
abbrev Counts := List (String × Nat)

/-- Python `d.get(k, 0)` on a counts dict. -/
def dictGet : Counts → String → Nat
  | [], _ => 0
  | (y, n) :: rest, k => if y = k then n else dictGet rest k

/-- add_dicts (bard/play.py line 15): keys are the union of both key sets,
each mapped to the sum of the two looked-up values.  Python iterates the
key set in unspecified order and dict equality ignores order, so the key
list is canonicalised here by dedup; all claims about add_dicts are stated
through dictGet, which is order independent. -/
def add_dicts (d1 d2 : Counts) : Counts :=
  ((d1.map Prod.fst ++ d2.map Prod.fst).dedup).map (fun k => (k, dictGet d1 k + dictGet d2 k))

/-- functools.reduce with no initial value: raises TypeError (none) on an
empty sequence, otherwise folds from the first element. -/
def reduce1 {α : Type} (f : α → α → α) : List α → Option α
  | [] => none
  | x :: xs => some (xs.foldl f x)

/-- Comparison decider for string order that computes by structural
recursion over the character lists (the library's own instance is defined
by well-founded recursion over byte iterators, which the kernel cannot
evaluate). -/
def strLeDec : DecidableRel (fun a b : String => a ≤ b) :=
  fun a b => decidable_of_iff (a.toList ≤ b.toList) String.le_iff_toList_le.symm

/-- Python `sorted` on a list of strings (ascending, lexicographic by code
point). -/
def sortStrings (l : List String) : List String :=
  @List.insertionSort String (fun a b => a ≤ b) strLeDec l

/-- Model of `{ k: len(list(g)) for (k, g) in itertools.groupby(speakers) }`:
the run lengths of consecutive equal elements, in run order.  The source
only applies this to a sorted list, where runs have distinct keys, so the
dict is this association list. -/
def countRuns : List String → Counts
  | [] => []
  | x :: xs =>
    match countRuns xs with
    | [] => [(x, 1)]
    | (y, n) :: rest => if x = y then (y, n + 1) :: rest else (x, 1) :: (y, n) :: rest

/-- Scene.speeches: the Speech events of the scene in order. -/
def Scene.speeches (s : Scene) : List Speech :=
  s.events.filterMap (fun e => match e with | .speech sp => some sp | .direction _ => none)

/-- Scene.speaker_counts: sort the speaker names of the scene's speeches
and count each group. -/
def Scene.speaker_counts (s : Scene) : Counts :=
  countRuns (sortStrings ((Scene.speeches s).map Speech.speaker))

/-- Act.speaker_counts: reduce add_dicts over the per-scene counts; raises
(none) when the act has no scenes. -/
def Act.speaker_counts (a : Act) : Option Counts :=
  reduce1 add_dicts (a.scenes.map Scene.speaker_counts)

/-- A Python list comprehension over a fallible body: the elements are
evaluated left to right and the first raised exception propagates. -/
def mapOption {α β : Type} (f : α → Option β) : List α → Option (List β)
  | [] => some []
  | x :: xs =>
    match f x with
    | none => none
    | some y => (mapOption f xs).map (fun ys => y :: ys)

/-- Play.speaker_counts: the comprehension evaluates every act's counts
(propagating any failure), then reduce add_dicts raises (none) when there
are no acts. -/
def Play.speaker_counts (p : Play) : Option Counts :=
  (mapOption Act.speaker_counts p.acts).bind (reduce1 add_dicts)

/-- Serialized records: strings, numbers, arrays, and objects with ordered
fields, mirroring the dict/list values the serialize methods build. -/
inductive SVal where
  | str (v : String)
  | num (v : Nat)
  | arr (items : List SVal)
  | obj (fields : List (String × SVal))

/-- Direction.serialize. -/
def serializeDirection (d : String) : SVal :=
  .obj [("type", .str "direction"), ("direction", .str d)]

/-- The module-level serialize helper applied to a Speech line: a plain
string is wrapped as a string record, a Direction serializes itself. -/
def serializeLine : Line → SVal
  | .str v => .obj [("type", .str "string"), ("value", .str v)]
  | .direction d => serializeDirection d

/-- Speech.serialize. -/
def Speech.serialize (sp : Speech) : SVal :=
  .obj [("type", .str "speech"), ("speaker", .str sp.speaker),
    ("lines", .arr (sp.lines.map serializeLine)),
    ("act_no", .num sp.act_no), ("scene_no", .num sp.scene_no), ("line_no", .num sp.line_no)]

/-- The serialize helper applied to a Scene event (always an entity, never
a plain string). -/
def serializeEvent : DramaticEvent → SVal
  | .direction d => serializeDirection d
  | .speech sp => Speech.serialize sp

/-- Scene.serialize. -/
def Scene.serialize (s : Scene) : SVal :=
  .obj [("type", .str "scene"), ("title", .str s.title), ("act_no", .num s.act_no),
    ("scene_no", .num s.scene_no), ("events", .arr (s.events.map serializeEvent))]

/-- Act.serialize: note the source emits only the type tag and the scenes;
the act_no field is not serialized. -/
def Act.serialize (a : Act) : SVal :=
  .obj [("type", .str "act"), ("scenes", .arr (a.scenes.map Scene.serialize))]

/-- Play.serialize. -/
def Play.serialize (p : Play) : SVal :=
  .obj [("type", .str "play"), ("title", .str p.title), ("url", .str p.url),
    ("acts", .arr (p.acts.map Act.serialize))]

/-- Reading one field of a serialized object record. -/
def lookupField : List (String × SVal) → String → Option SVal
  | [], _ => none
  | (k, v) :: rest, key => if k = key then some v else lookupField rest key

/-- Reading a field value back out of a serialized record. -/
def getField : SVal → String → Option SVal
  | .obj fields, key => lookupField fields key
  | .str _, _ => none
  | .num _, _ => none
  | .arr _, _ => none

/-- Speech.__lt__ compares the 4-tuples
(act_no, scene_no, line_no, speaker) with Python tuple comparison, which
is lexicographic; embedded with the lexicographic product order. -/
def Speech.sortKey (s : Speech) : Nat ×ₗ (Nat ×ₗ (Nat ×ₗ String)) :=
  toLex (s.act_no, toLex (s.scene_no, toLex (s.line_no, s.speaker)))

/-- Speech.__lt__. -/
def Speech.lt (a b : Speech) : Prop :=
  Speech.sortKey a < Speech.sortKey b

/-- The non-strict order induced by Speech.__lt__, the order of any sorted
presentation of speeches. -/
def Speech.le (a b : Speech) : Prop :=
  Speech.sortKey a ≤ Speech.sortKey b

instance : DecidableRel Speech.lt :=
  fun a b => inferInstanceAs (Decidable (Speech.sortKey a < Speech.sortKey b))

instance : DecidableRel Speech.le :=
  fun a b => inferInstanceAs (Decidable (Speech.sortKey a ≤ Speech.sortKey b))

/-- Model of Python runtime values as seen by the hash protocol: ints and
strings hash, lists are unhashable (hash raises TypeError), tuples hash
their elements left to right and fail if any element fails, and plain
objects (such as Direction instances) hash by identity.  The concrete hash
values of strings, objects and tuples are irrelevant to every claim, so
they are parameters. -/
inductive PyVal where
  | int (n : Int)
  | str (s : String)
  | list (xs : List PyVal)
  | tuple (xs : List PyVal)
  | obj (id : Nat)

mutual

/-- CPython hash semantics on the modelled values: `none` is the TypeError
raised for an unhashable value. -/
def pyHashVal (strHash : String → Int) (combine : List Int → Int) : PyVal → Option Int
  | .int n => some n
  | .str s => some (strHash s)
  | .list _ => none
  | .tuple xs => (pyHashValList strHash combine xs).map combine
  | .obj i => some (Int.ofNat i)

/-- Elementwise hashing of a tuple's items, failing on the first
unhashable item. -/
def pyHashValList (strHash : String → Int) (combine : List Int → Int) : List PyVal → Option (List Int)
  | [] => some []
  | v :: vs =>
    match pyHashVal strHash combine v with
    | none => none
    | some h => (pyHashValList strHash combine vs).map (fun hs => h :: hs)

end

/-- A Speech line as a Python runtime value: a plain str, or a Direction
instance (a plain object with only the default identity hash). -/
def Line.toPyVal : Line → PyVal
  | .str s => .str s
  | .direction _ => .obj 0

/-- Speech.__hash__: `hash((self.speaker, self.lines, self.act_no,
self.scene_no, self.line_no))`, where self.lines is a Python list. -/
def Speech.pyHash (strHash : String → Int) (combine : List Int → Int) (s : Speech) : Option Int :=
  pyHashVal strHash combine
    (.tuple [.str s.speaker, .list (s.lines.map Line.toPyVal),
      .int (s.act_no : Int), .int (s.scene_no : Int), .int (s.line_no : Int)])

/-- A concrete scene with speeches by A, B, A, used in concrete checks. -/
def exSceneABA : Scene :=
  { title := "t", act_no := 1, scene_no := 1, events := [.speech { speaker := "A", lines := [], act_no := 1, scene_no := 1, line_no := 1 }, .speech { speaker := "B", lines := [], act_no := 1, scene_no := 1, line_no := 2 }, .speech { speaker := "A", lines := [], act_no := 1, scene_no := 1, line_no := 3 }] }

/-- A concrete one-act play containing exSceneABA. -/
def exPlayABA : Play :=
  { title := "T", url := "u", acts := [{ act_no := 1, scenes := [exSceneABA] }] }

/-- Unfolding dictGet over a cons cell. -/
theorem dictGet_cons (y : String) (n : Nat) (d : Counts) (k : String) :
    dictGet ((y, n) :: d) k = if y = k then n else dictGet d k := rfl

/-- A key outside a dict's key list looks up to the default 0. -/
theorem dictGet_eq_zero_of_not_mem (d : Counts) (k : String) (h : k ∉ d.map Prod.fst) :
    dictGet d k = 0 := by
  induction d with
  | nil => rfl
  | cons p rest ih =>
    obtain ⟨y, n⟩ := p
    simp only [List.map_cons, List.mem_cons, not_or] at h
    rw [dictGet_cons, if_neg (fun e => h.1 e.symm)]
    exact ih h.2

/-- Looking up a dict built from a key list. -/
theorem dictGet_mapKeys (ks : List String) (f : String → Nat) (k : String) :
    dictGet (ks.map (fun q => (q, f q))) k = if k ∈ ks then f k else 0 := by
  induction ks with
  | nil => rfl
  | cons y ks ih =>
    rw [List.map_cons, dictGet_cons]
    by_cases h : y = k
    · subst h
      simp
    · rw [if_neg h, ih]
      have hk : k ≠ y := fun e => h e.symm
      simp [List.mem_cons, hk]

/-- add_dicts looks up to the sum of the two lookups. -/
theorem dictGet_add_dicts (d1 d2 : Counts) (k : String) :
    dictGet (add_dicts d1 d2) k = dictGet d1 k + dictGet d2 k := by
  unfold add_dicts
  rw [dictGet_mapKeys]
  by_cases h : k ∈ (d1.map Prod.fst ++ d2.map Prod.fst).dedup
  · rw [if_pos h]
  · rw [if_neg h]
    rw [List.mem_dedup, List.mem_append] at h
    push_neg at h
    rw [dictGet_eq_zero_of_not_mem d1 k h.1, dictGet_eq_zero_of_not_mem d2 k h.2]

/-- Folding add_dicts sums the lookups. -/
theorem dictGet_foldl (xs : List Counts) (x : Counts) (k : String) :
    dictGet (xs.foldl add_dicts x) k = dictGet x k + (xs.map (fun d => dictGet d k)).sum := by
  induction xs generalizing x with
  | nil => simp
  | cons d xs ih =>
    rw [List.foldl_cons, ih, dictGet_add_dicts]
    simp [Nat.add_assoc]

/-- reduce1 of add_dicts on a non-empty list of dicts succeeds and looks up
to the sum of the lookups. -/
theorem reduce1_counts (ds : List Counts) (h : ds ≠ []) :
    ∃ D, reduce1 add_dicts ds = some D ∧ ∀ k, dictGet D k = (ds.map (fun d => dictGet d k)).sum := by
  cases ds with
  | nil => exact absurd rfl h
  | cons d ds =>
    refine ⟨ds.foldl add_dicts d, rfl, fun k => ?_⟩
    rw [dictGet_foldl]
    simp

/-- Step equation for countRuns when the tail's runs are known. -/
theorem countRuns_cons_eq (x : String) (xs : List String) (y : String) (n : Nat) (rest : Counts)
    (hc : countRuns xs = (y, n) :: rest) :
    countRuns (x :: xs) = if x = y then (y, n + 1) :: rest else (x, 1) :: (y, n) :: rest := by
  rw [show countRuns (x :: xs) = (match countRuns xs with | [] => [(x, 1)] | (y2, n2) :: r => if x = y2 then (y2, n2 + 1) :: r else (x, 1) :: (y2, n2) :: r) from rfl, hc]

/-- The head run of countRuns on a cons is keyed by the head element. -/
theorem countRuns_head_key (x : String) (xs : List String) :
    ∃ n rest, countRuns (x :: xs) = (x, n) :: rest := by
  cases hc : countRuns xs with
  | nil =>
    exact ⟨1, [], by rw [show countRuns (x :: xs) = (match countRuns xs with | [] => [(x, 1)] | (y2, n2) :: r => if x = y2 then (y2, n2 + 1) :: r else (x, 1) :: (y2, n2) :: r) from rfl, hc]⟩
  | cons p r2 =>
    obtain ⟨y2, n2⟩ := p
    by_cases he : x = y2
    · subst he
      exact ⟨n2 + 1, r2, by rw [countRuns_cons_eq x xs x n2 r2 hc, if_pos rfl]⟩
    · exact ⟨1, (y2, n2) :: r2, by rw [countRuns_cons_eq x xs y2 n2 r2 hc, if_neg he]⟩

/-- On a sorted list, the groupby dict looks up each key to its number of
occurrences. -/
theorem dictGet_countRuns (k : String) (l : List String)
    (hs : List.Sorted (fun a b => a ≤ b) l) :
    dictGet (countRuns l) k = l.count k := by
  induction l with
  | nil => rfl
  | cons x xs ih =>
    have hs2 : List.Sorted (fun a b => a ≤ b) xs := hs.of_cons
    have hall : ∀ b ∈ xs, x ≤ b := List.rel_of_sorted_cons hs
    have ihx := ih hs2
    cases xs with
    | nil =>
      by_cases hk : x = k
      · subst hk
        simp [countRuns, dictGet]
      · rw [show countRuns [x] = [(x, 1)] from rfl, dictGet_cons, if_neg hk]
        simp [dictGet, List.count_cons, Ne.symm hk]
    | cons a t =>
      obtain ⟨n, rest, hc⟩ := countRuns_head_key a t
      rw [hc] at ihx
      rw [countRuns_cons_eq x (a :: t) a n rest hc]
      by_cases hxa : x = a
      · subst hxa
        rw [if_pos rfl]
        by_cases hk : x = k
        · subst hk
          rw [dictGet_cons, if_pos rfl]
          rw [dictGet_cons, if_pos rfl] at ihx
          simp [List.count_cons, ← ihx]
        · rw [dictGet_cons, if_neg hk]
          rw [dictGet_cons, if_neg hk] at ihx
          rw [ihx]
          simp [List.count_cons, Ne.symm hk]
      · rw [if_neg hxa]
        by_cases hk : x = k
        · subst hk
          rw [dictGet_cons, if_pos rfl]
          have hxt : x ∉ a :: t := by
            intro hmem
            rcases List.mem_cons.mp hmem with he | ht
            · exact hxa he
            · have hax : a ≤ x := List.rel_of_sorted_cons hs2 x ht
              have hxa2 : x ≤ a := hall a (List.mem_cons_self a t)
              exact hxa (le_antisymm hxa2 hax)
          have hcount : (a :: t).count x = 0 := List.count_eq_zero.mpr hxt
          simp [List.count_cons, hcount]
        · rw [dictGet_cons, if_neg hk, ihx]
          simp [List.count_cons, Ne.symm hk]

/-- Scene.speaker_counts looks up each speaker to the number of Speech
events attributed to that speaker in the scene. -/
theorem scene_counts_count (s : Scene) (k : String) :
    dictGet (Scene.speaker_counts s) k = ((Scene.speeches s).map Speech.speaker).count k := by
  have hsorted : List.Sorted (fun a b : String => a ≤ b)
      (sortStrings ((Scene.speeches s).map Speech.speaker)) := by
    unfold sortStrings
    exact @List.sorted_insertionSort String (fun a b => a ≤ b) strLeDec inferInstance inferInstance _
  have hperm : List.Perm (sortStrings ((Scene.speeches s).map Speech.speaker))
      ((Scene.speeches s).map Speech.speaker) := by
    unfold sortStrings
    exact @List.perm_insertionSort String (fun a b => a ≤ b) strLeDec _
  unfold Scene.speaker_counts
  rw [dictGet_countRuns k _ hsorted]
  exact hperm.count_eq k

/-- Act.speaker_counts on an act with scenes succeeds and looks up to the
per-scene sums. -/
theorem act_counts_of_scenes (a : Act) (ha : a.scenes ≠ []) :
    ∃ d, Act.speaker_counts a = some d ∧
      ∀ k, dictGet d k = (a.scenes.map (fun sc => dictGet (Scene.speaker_counts sc) k)).sum := by
  obtain ⟨D, hD, hDk⟩ := reduce1_counts (a.scenes.map Scene.speaker_counts)
    (fun e => ha (List.map_eq_nil_iff.mp e))
  refine ⟨D, hD, fun k => ?_⟩
  rw [hDk k, List.map_map]
  rfl

/-- Evaluating all act counts in a play whose acts all have scenes. -/
theorem mapOption_act_counts (l : List Act) (h : ∀ x ∈ l, x.scenes ≠ []) :
    ∃ ds, mapOption Act.speaker_counts l = some ds ∧ ds.length = l.length ∧
      ∀ k, (ds.map (fun d => dictGet d k)).sum
        = (l.map (fun x => ((x.scenes.map (fun sc => dictGet (Scene.speaker_counts sc) k)).sum))).sum := by
  induction l with
  | nil => exact ⟨[], rfl, rfl, fun k => rfl⟩
  | cons x l ih =>
    obtain ⟨d, hd, hdk⟩ := act_counts_of_scenes x (h x (List.mem_cons_self x l))
    obtain ⟨ds, hds, hlen, hsum⟩ := ih (fun y hy => h y (List.mem_cons_of_mem x hy))
    refine ⟨d :: ds, ?_, by simp [hlen], fun k => ?_⟩
    · simp [mapOption, hd, hds]
    · simp [List.map_cons, List.sum_cons, hdk k, hsum k]

/-- Summing per-scene values over a flattened scene list equals summing
the per-act sums. -/
theorem sum_over_flatMap (l : List Act) (f : Scene → Nat) :
    ((l.flatMap (fun x => x.scenes)).map f).sum
      = (l.map (fun x => ((x.scenes.map f).sum))).sum := by
  induction l with
  | nil => rfl
  | cons a l ih => simp [List.flatMap_cons, List.map_append, List.sum_append, ih]

/-- C6: for a play with at least one act, each act with at least one
scene, Play.speaker_counts succeeds and equals (pointwise, under lookup
with default 0) the merge of the per-act counts, which equals the merge of
the per-scene counts over all scenes; each scene's counts map each speaker
to the number of Speech events attributed to it; the add_dicts merge is
associative and commutative under lookup; and a scene with speeches by A,
B, A counts to two for A and one for B. -/
theorem speaker_counts_merge_law (p : Play) (s : Scene) (d1 d2 d3 : Counts) (k : String)
    (h1 : p.acts ≠ []) (h2 : ∀ x ∈ p.acts, x.scenes ≠ []) :
    (∃ D, Play.speaker_counts p = some D
      ∧ dictGet D k = (p.acts.map (fun x => ((x.scenes.map (fun sc => dictGet (Scene.speaker_counts sc) k)).sum))).sum
      ∧ dictGet D k = ((p.acts.flatMap (fun x => x.scenes)).map (fun sc => dictGet (Scene.speaker_counts sc) k)).sum)
    ∧ dictGet (Scene.speaker_counts s) k = ((Scene.speeches s).map Speech.speaker).count k
    ∧ dictGet (add_dicts (add_dicts d1 d2) d3) k = dictGet (add_dicts d1 (add_dicts d2 d3)) k
    ∧ dictGet (add_dicts d1 d2) k = dictGet (add_dicts d2 d1) k
    ∧ Scene.speaker_counts exSceneABA = [("A", 2), ("B", 1)] := by
  refine ⟨?_, scene_counts_count s k, ?_, ?_, by decide⟩
  · obtain ⟨ds, hds, hlen, hsum⟩ := mapOption_act_counts p.acts h2
    have hne : ds ≠ [] := by
      intro e
      rw [e] at hlen
      exact h1 (List.length_eq_zero.mp hlen.symm)
    obtain ⟨D, hD, hDk⟩ := reduce1_counts ds hne
    refine ⟨D, ?_, ?_, ?_⟩
    · unfold Play.speaker_counts
      rw [hds]
      exact hD
    · rw [hDk k, hsum k]
    · rw [hDk k, hsum k, sum_over_flatMap]
  · simp [dictGet_add_dicts, Nat.add_assoc]
  · simp [dictGet_add_dicts, Nat.add_comm]

/-- Witness for C6: the merge law at a concrete one-act play, concrete
dicts and the key "A". -/
theorem speaker_counts_merge_law_witness :
    (∃ D, Play.speaker_counts exPlayABA = some D
      ∧ dictGet D "A" = (exPlayABA.acts.map (fun x => ((x.scenes.map (fun sc => dictGet (Scene.speaker_counts sc) "A")).sum))).sum
      ∧ dictGet D "A" = ((exPlayABA.acts.flatMap (fun x => x.scenes)).map (fun sc => dictGet (Scene.speaker_counts sc) "A")).sum)
    ∧ dictGet (Scene.speaker_counts exSceneABA) "A" = ((Scene.speeches exSceneABA).map Speech.speaker).count "A"
    ∧ dictGet (add_dicts (add_dicts [("A", 1)] [("B", 2)]) [("A", 3)]) "A" = dictGet (add_dicts [("A", 1)] (add_dicts [("B", 2)] [("A", 3)])) "A"
    ∧ dictGet (add_dicts [("A", 1)] [("B", 2)]) "A" = dictGet (add_dicts [("B", 2)] [("A", 1)]) "A"
    ∧ Scene.speaker_counts exSceneABA = [("A", 2), ("B", 1)] :=
  speaker_counts_merge_law exPlayABA exSceneABA [("A", 1)] [("B", 2)] [("A", 3)] "A"
    (by decide) (by decide)

/-- C2: Scene.add_line raises the structural parse error exactly when the
scene's event list is empty at the time of the call, and in that error
case the event list is left unchanged (the raise happens before any
append). -/
theorem add_line_error_iff_empty (s : Scene) (x : Line) (n : Nat) :
    ((Scene.add_lineTrace s x n).2.isSome ↔ s.events = [])
    ∧ (s.events = [] → (Scene.add_lineTrace s x n).1 = s) := by
  rcases List.eq_nil_or_concat s.events with h | ⟨L, b, h⟩
  · simp [Scene.add_lineTrace, h]
  · cases b <;>
      simp [Scene.add_lineTrace, h, List.getLast?_concat]

/-- Witness for C2: both directions of the iff and the unchanged-state
conclusion at concrete scenes. -/
theorem add_line_error_iff_empty_witness :
    ((Scene.add_lineTrace { title := "t", act_no := 1, scene_no := 1, events := [] } (.str "x") 3).2.isSome
      ↔ ({ title := "t", act_no := 1, scene_no := 1, events := [] } : Scene).events = [])
    ∧ (Scene.add_lineTrace { title := "t", act_no := 1, scene_no := 1, events := [] } (.str "x") 3).1
      = { title := "t", act_no := 1, scene_no := 1, events := [] } :=
  ⟨(add_line_error_iff_empty { title := "t", act_no := 1, scene_no := 1, events := [] } (.str "x") 3).1,
   (add_line_error_iff_empty { title := "t", act_no := 1, scene_no := 1, events := [] } (.str "x") 3).2 rfl⟩

/-- C3: when the event list is non-empty, add_line on a scene whose last
event is not a Speech appends a new Speech with sentinel speaker
"Unknown", line list exactly the one new line, the scene's act and scene
numbers and the given line number; when the last event is a Speech the
line is appended to that Speech's lines and no new event is added. -/
theorem add_line_append (s : Scene) (x : Line) (n : Nat) :
    (∀ pre d0, s.events = pre ++ [.direction d0] →
      Scene.add_line s x n = some { s with events := s.events ++
        [.speech { speaker := "Unknown", lines := [x], act_no := s.act_no, scene_no := s.scene_no, line_no := n }] })
    ∧ (∀ pre sp, s.events = pre ++ [.speech sp] →
      Scene.add_line s x n = some { s with events := pre ++
        [.speech { sp with lines := sp.lines ++ [x] }] }) := by
  constructor
  · intro pre d0 h
    simp [Scene.add_line, Scene.add_lineTrace, h, List.getLast?_concat]
  · intro pre sp h
    simp [Scene.add_line, Scene.add_lineTrace, h, List.getLast?_concat, List.dropLast_concat]

/-- Witness for C3: both branches at concrete scenes. -/
theorem add_line_append_witness :
    Scene.add_line { title := "t", act_no := 2, scene_no := 3, events := [.direction "Enter"] } (.str "x") 7
      = some { title := "t", act_no := 2, scene_no := 3, events := [.direction "Enter", .speech { speaker := "Unknown", lines := [.str "x"], act_no := 2, scene_no := 3, line_no := 7 }] }
    ∧ Scene.add_line { title := "t", act_no := 2, scene_no := 3, events := [.speech { speaker := "A", lines := [.str "y"], act_no := 2, scene_no := 3, line_no := 1 }] } (.str "x") 7
      = some { title := "t", act_no := 2, scene_no := 3, events := [.speech { speaker := "A", lines := [.str "y", .str "x"], act_no := 2, scene_no := 3, line_no := 1 }] } :=
  ⟨(add_line_append { title := "t", act_no := 2, scene_no := 3, events := [.direction "Enter"] } (.str "x") 7).1
      [] "Enter" rfl,
   (add_line_append { title := "t", act_no := 2, scene_no := 3, events := [.speech { speaker := "A", lines := [.str "y"], act_no := 2, scene_no := 3, line_no := 1 }] } (.str "x") 7).2
      [] { speaker := "A", lines := [.str "y"], act_no := 2, scene_no := 3, line_no := 1 } rfl⟩

/-- C4: add_direction appends a new top-level Direction event when the
scene is empty or its last event is a Direction, and otherwise embeds the
direction at the end of the trailing Speech's line list; including the two
concrete scenarios of the claim. -/
theorem add_direction_behavior (s : Scene) (d : String) :
    (s.events = [] → Scene.add_direction s d = { s with events := s.events ++ [.direction d] })
    ∧ (∀ pre d0, s.events = pre ++ [.direction d0] →
      Scene.add_direction s d = { s with events := s.events ++ [.direction d] })
    ∧ (∀ pre sp, s.events = pre ++ [.speech sp] →
      Scene.add_direction s d = { s with events := pre ++
        [.speech { sp with lines := sp.lines ++ [.direction d] }] })
    ∧ ((Scene.add_direction (Scene.add_direction
          { title := "A room.", act_no := 1, scene_no := 1, events := [] } "Enter Hamlet") "Exit").events
        = [.direction "Enter Hamlet", .direction "Exit"])
    ∧ ((Scene.add_line (Scene.add_direction
          { title := "A room.", act_no := 1, scene_no := 1, events := [] } "Enter Hamlet") (.str "To be") 1).map
            (fun s2 => (Scene.add_direction s2 "Exit").events)
        = some [.direction "Enter Hamlet",
            .speech { speaker := "Unknown", lines := [.str "To be", .direction "Exit"], act_no := 1, scene_no := 1, line_no := 1 }]) := by
  refine ⟨fun h => ?_, fun pre d0 h => ?_, fun pre sp h => ?_, by decide, by decide⟩
  · simp [Scene.add_direction, h]
  · simp [Scene.add_direction, h, List.getLast?_concat]
  · simp [Scene.add_direction, h, List.getLast?_concat, List.dropLast_concat]

/-- Witness for C4: all three conditional branches at concrete scenes. -/
theorem add_direction_behavior_witness :
    Scene.add_direction { title := "t", act_no := 1, scene_no := 1, events := [] } "Exit"
      = { title := "t", act_no := 1, scene_no := 1, events := [.direction "Exit"] }
    ∧ Scene.add_direction { title := "t", act_no := 1, scene_no := 1, events := [.direction "Enter"] } "Exit"
      = { title := "t", act_no := 1, scene_no := 1, events := [.direction "Enter", .direction "Exit"] }
    ∧ Scene.add_direction { title := "t", act_no := 1, scene_no := 1, events := [.speech { speaker := "A", lines := [.str "y"], act_no := 1, scene_no := 1, line_no := 1 }] } "Exit"
      = { title := "t", act_no := 1, scene_no := 1, events := [.speech { speaker := "A", lines := [.str "y", .direction "Exit"], act_no := 1, scene_no := 1, line_no := 1 }] } :=
  ⟨(add_direction_behavior { title := "t", act_no := 1, scene_no := 1, events := [] } "Exit").1 rfl,
   (add_direction_behavior { title := "t", act_no := 1, scene_no := 1, events := [.direction "Enter"] } "Exit").2.1
      [] "Enter" rfl,
   (add_direction_behavior { title := "t", act_no := 1, scene_no := 1, events := [.speech { speaker := "A", lines := [.str "y"], act_no := 1, scene_no := 1, line_no := 1 }] } "Exit").2.2.1
      [] { speaker := "A", lines := [.str "y"], act_no := 1, scene_no := 1, line_no := 1 } rfl⟩

/-- C5 counterexample: Scene.__init__ stores the second captured group of
scene_title_regex without stripping it, so the title "SCENE II. A
churchyard." yields the scene title " A churchyard." with a leading
space, not "A churchyard." as claimed. -/
theorem scene_title_not_trimmed_cex :
    (Scene.init "SCENE II. A churchyard." 1 2).title = " A churchyard."
    ∧ (Scene.init "SCENE II. A churchyard." 1 2).title ≠ "A churchyard." := by
  constructor
  · rfl
  · decide

/-- C5 amended: when the title matches `SCENE <roman-numerals>.<rest>` the
stored title is the captured `<rest>` verbatim — whitespace is NOT
trimmed, so a leading space survives — and otherwise the raw title is
stored unchanged.  "SCENE II. A churchyard." yields " A churchyard."
(leading space retained); "A churchyard." passes through unchanged. -/
theorem scene_title_parsing_amended (t rn rest : String) (a n : Nat) :
    (sceneTitleMatch t = some (rn, rest) → (Scene.init t a n).title = rest)
    ∧ (sceneTitleMatch t = none → (Scene.init t a n).title = t)
    ∧ (Scene.init "SCENE II. A churchyard." 1 2).title = " A churchyard."
    ∧ (Scene.init "A churchyard." 1 2).title = "A churchyard." := by
  refine ⟨fun h => ?_, fun h => ?_, rfl, rfl⟩ <;> simp [Scene.init, h]

/-- Witness for C5 (amended): both match outcomes at concrete titles. -/
theorem scene_title_parsing_amended_witness :
    (Scene.init "SCENE II. A churchyard." 1 2).title = " A churchyard."
    ∧ (Scene.init "A churchyard." 1 2).title = "A churchyard." :=
  ⟨(scene_title_parsing_amended "SCENE II. A churchyard." "II" " A churchyard." 1 2).1 (by decide),
   (scene_title_parsing_amended "A churchyard." "" "" 1 2).2.1 (by decide)⟩

/-- C7 counterexample: Act.serialize emits only the type tag and the
scenes, so two Acts that differ only in act number serialize to the same
record and the serialized record has no act_no field — the act number is
not recoverable from the serialized record. -/
theorem act_serialize_drops_act_no_cex :
    Act.serialize { act_no := 1, scenes := [] } = Act.serialize { act_no := 2, scenes := [] }
    ∧ ({ act_no := 1, scenes := [] } : Act) ≠ { act_no := 2, scenes := [] }
    ∧ getField (Act.serialize { act_no := 2, scenes := [] }) "act_no" = none :=
  ⟨rfl, by decide, rfl⟩

/-- C7 amended: every entity serializes to a record tagged with a type
field, nested entities are recursively serialized, and plain-text lines
are wrapped as string records; the serialized fields of Play (title, url,
acts), Scene (title, act_no, scene_no, events), Speech (all five fields)
and Direction (direction) read back equal to the original field values —
but an Act's record carries only its type tag and its scenes, so the
act_no field of an Act is not recoverable. -/
theorem serialize_field_fidelity_amended :
    (∀ p : Play, getField (Play.serialize p) "type" = some (.str "play")
      ∧ getField (Play.serialize p) "title" = some (.str p.title)
      ∧ getField (Play.serialize p) "url" = some (.str p.url)
      ∧ getField (Play.serialize p) "acts" = some (.arr (p.acts.map Act.serialize)))
    ∧ (∀ a : Act, getField (Act.serialize a) "type" = some (.str "act")
      ∧ getField (Act.serialize a) "scenes" = some (.arr (a.scenes.map Scene.serialize))
      ∧ getField (Act.serialize a) "act_no" = none)
    ∧ (∀ s : Scene, getField (Scene.serialize s) "type" = some (.str "scene")
      ∧ getField (Scene.serialize s) "title" = some (.str s.title)
      ∧ getField (Scene.serialize s) "act_no" = some (.num s.act_no)
      ∧ getField (Scene.serialize s) "scene_no" = some (.num s.scene_no)
      ∧ getField (Scene.serialize s) "events" = some (.arr (s.events.map serializeEvent)))
    ∧ (∀ sp : Speech, getField (Speech.serialize sp) "type" = some (.str "speech")
      ∧ getField (Speech.serialize sp) "speaker" = some (.str sp.speaker)
      ∧ getField (Speech.serialize sp) "lines" = some (.arr (sp.lines.map serializeLine))
      ∧ getField (Speech.serialize sp) "act_no" = some (.num sp.act_no)
      ∧ getField (Speech.serialize sp) "scene_no" = some (.num sp.scene_no)
      ∧ getField (Speech.serialize sp) "line_no" = some (.num sp.line_no))
    ∧ (∀ d : String, getField (serializeDirection d) "type" = some (.str "direction")
      ∧ getField (serializeDirection d) "direction" = some (.str d))
    ∧ (∀ v : String, serializeLine (.str v) = .obj [("type", .str "string"), ("value", .str v)]) := by
  refine ⟨fun p => ?_, fun a => ?_, fun s => ?_, fun sp => ?_, fun d => ?_, fun v => rfl⟩ <;>
    simp [Play.serialize, Act.serialize, Scene.serialize, Speech.serialize,
      serializeDirection, getField, lookupField]

/-- C10: Speech.__hash__ hashes the tuple (speaker, lines, act_no,
scene_no, line_no); since self.lines is a Python list, which is
unhashable, hashing any Speech raises TypeError, whatever the element
hash values are — so no Speech can be used in a set or as a dict key. -/
theorem speech_hash_raises (strHash : String → Int) (combine : List Int → Int) (s : Speech) :
    Speech.pyHash strHash combine s = none := by
  simp [Speech.pyHash, pyHashVal, pyHashValList]

/-- C1: the parser loop's anchor transitions.  When the anchor's name
matches the `<int>.<int>.<int>` pattern and a pending speaker is set, a
new Speech opens in the current Scene with that speaker, the third
captured integer as line number (the first two are ignored), and the
anchor's stripped text as its only line, and the pending speaker is
cleared; with no pending speaker the stripped text is appended as a line
at that line number; when the name does not match, the stripped text
becomes the new pending speaker, unconditionally overwriting the old
one. -/
theorem anchor_event_dispatch (st : ParseState) (nm txt sp : String) (a b c : Nat)
    (acts : List Act) (an : Nat) (scenes : List Scene) (sc : Scene) :
    (speechPatternMatch nm = some (a, b, c) → st.new_speaker = some sp →
      st.play.acts = acts ++ [{ act_no := an, scenes := scenes ++ [sc] }] →
      parse_step st (.anchor (some nm) txt)
        = some { play := { st.play with acts := acts ++ [{ act_no := an, scenes := scenes ++ [{ sc with events := sc.events ++ [.speech { speaker := sp, lines := [.str (pyStrip txt)], act_no := sc.act_no, scene_no := sc.scene_no, line_no := c }] }] }] }, new_speaker := none })
    ∧ (speechPatternMatch nm = some (a, b, c) → st.new_speaker = none →
      parse_step st (.anchor (some nm) txt)
        = (st.play.add_line (.str (pyStrip txt)) c).map (fun p => { play := p, new_speaker := none }))
    ∧ (speechPatternMatch nm = none →
      parse_step st (.anchor (some nm) txt) = some { st with new_speaker := some (pyStrip txt) }) := by
  refine ⟨fun hm hp hacts => ?_, fun hm hp => ?_, fun hm => ?_⟩
  · simp [parse_step, hm, hp, Play.add_speech, Act.add_speech, Scene.add_speech,
      updateLastM, updateLast, hacts, List.getLast?_concat, List.dropLast_concat]
  · simp [parse_step, hm, hp]
  · simp [parse_step, hm]

/-- Witness for C1: all three anchor transitions at concrete states. -/
theorem anchor_event_dispatch_witness :
    parse_step { play := { title := "T", url := "u", acts := [{ act_no := 1, scenes := [{ title := "A room.", act_no := 1, scene_no := 1, events := [] }] }] }, new_speaker := some "HAMLET" } (.anchor (some "1.1.7") " To be ")
      = some { play := { title := "T", url := "u", acts := [{ act_no := 1, scenes := [{ title := "A room.", act_no := 1, scene_no := 1, events := [.speech { speaker := "HAMLET", lines := [.str "To be"], act_no := 1, scene_no := 1, line_no := 7 }] }] }] }, new_speaker := none }
    ∧ parse_step { play := { title := "T", url := "u", acts := [{ act_no := 1, scenes := [{ title := "A room.", act_no := 1, scene_no := 1, events := [.speech { speaker := "HAMLET", lines := [.str "To be"], act_no := 1, scene_no := 1, line_no := 7 }] }] }] }, new_speaker := none } (.anchor (some "1.1.8") "or not to be")
      = (Play.add_line { title := "T", url := "u", acts := [{ act_no := 1, scenes := [{ title := "A room.", act_no := 1, scene_no := 1, events := [.speech { speaker := "HAMLET", lines := [.str "To be"], act_no := 1, scene_no := 1, line_no := 7 }] }] }] } (.str "or not to be") 8).map (fun p => { play := p, new_speaker := none })
    ∧ parse_step { play := { title := "T", url := "u", acts := [] }, new_speaker := some "OLD" } (.anchor (some "speech42") "HORATIO")
      = some { play := { title := "T", url := "u", acts := [] }, new_speaker := some "HORATIO" } := by
  refine ⟨?_, ?_, ?_⟩
  · exact ((anchor_event_dispatch { play := { title := "T", url := "u", acts := [{ act_no := 1, scenes := [{ title := "A room.", act_no := 1, scene_no := 1, events := [] }] }] }, new_speaker := some "HAMLET" } "1.1.7" " To be " "HAMLET" 1 1 7 [] 1 [] { title := "A room.", act_no := 1, scene_no := 1, events := [] }).1 (by decide) rfl rfl).trans (by decide)
  · exact ((anchor_event_dispatch { play := { title := "T", url := "u", acts := [{ act_no := 1, scenes := [{ title := "A room.", act_no := 1, scene_no := 1, events := [.speech { speaker := "HAMLET", lines := [.str "To be"], act_no := 1, scene_no := 1, line_no := 7 }] }] }] }, new_speaker := none } "1.1.8" "or not to be" "X" 1 1 8 [] 1 [] { title := "A room.", act_no := 1, scene_no := 1, events := [] }).2.1 (by decide) rfl).trans (by decide)
  · exact ((anchor_event_dispatch { play := { title := "T", url := "u", acts := [] }, new_speaker := some "OLD" } "speech42" "HORATIO" "X" 0 0 0 [] 1 [] { title := "t", act_no := 1, scene_no := 1, events := [] }).2.2 (by decide)).trans (by decide)

/-- C8: Speech.__lt__ holds exactly when the (act_no, scene_no, line_no,
speaker) tuples compare lexicographically; the induced non-strict order
is the strict order or componentwise equality; and sorting any list of
speeches by that order yields a permutation that is pairwise
non-descending in the tuple-lexicographic order. -/
theorem speech_order_lex (s1 s2 : Speech) (l : List Speech) :
    (Speech.lt s1 s2 ↔
      (s1.act_no < s2.act_no ∨ (s1.act_no = s2.act_no ∧
        (s1.scene_no < s2.scene_no ∨ (s1.scene_no = s2.scene_no ∧
          (s1.line_no < s2.line_no ∨ (s1.line_no = s2.line_no ∧ s1.speaker < s2.speaker)))))))
    ∧ (∀ x y : Speech, Speech.le x y ↔ (Speech.lt x y ∨
        (x.act_no = y.act_no ∧ x.scene_no = y.scene_no ∧ x.line_no = y.line_no ∧ x.speaker = y.speaker)))
    ∧ (List.insertionSort Speech.le l).Sorted Speech.le
    ∧ List.Perm (List.insertionSort Speech.le l) l := by
  haveI htotal : IsTotal Speech Speech.le :=
    ⟨fun x y => le_total (Speech.sortKey x) (Speech.sortKey y)⟩
  haveI htrans : IsTrans Speech Speech.le :=
    ⟨fun x y z hxy hyz => le_trans hxy hyz⟩
  refine ⟨?_, fun x y => ?_, List.sorted_insertionSort _ l, List.perm_insertionSort _ l⟩
  · simp [Speech.lt, Speech.sortKey, Prod.Lex.lt_iff]
  · constructor
    · intro h
      rcases lt_or_eq_of_le (h : Speech.sortKey x ≤ Speech.sortKey y) with h2 | h2
      · exact Or.inl h2
      · right
        simp [Speech.sortKey] at h2
        exact ⟨h2.1, h2.2.1, h2.2.2.1, h2.2.2.2⟩
    · rintro (h | ⟨h1, h2, h3, h4⟩)
      · exact le_of_lt h
      · refine le_of_eq ?_
        simp [Speech.sortKey, h1, h2, h3, h4]

/-- C9: Play.speaker_counts raises (the reduce of an empty act list) on a
Play with no acts, Act.speaker_counts raises on an Act with no scenes,
and Scene.speaker_counts of a Scene with no Speech events is the empty
mapping. -/
theorem speaker_counts_empty_errors (p : Play) (a : Act) (s : Scene)
    (hp : p.acts = []) (ha : a.scenes = []) (hs : Scene.speeches s = []) :
    Play.speaker_counts p = none ∧ Act.speaker_counts a = none ∧ Scene.speaker_counts s = [] := by
  refine ⟨?_, ?_, ?_⟩
  · unfold Play.speaker_counts
    rw [hp]
    rfl
  · simp [Act.speaker_counts, ha, reduce1]
  · simp [Scene.speaker_counts, hs, sortStrings, countRuns]

/-- Witness for C9: an act-less play, a scene-less act, and a scene whose
only event is a direction. -/
theorem speaker_counts_empty_errors_witness :
    Play.speaker_counts { title := "T", url := "u", acts := [] } = none
    ∧ Act.speaker_counts { act_no := 1, scenes := [] } = none
    ∧ Scene.speaker_counts { title := "t", act_no := 1, scene_no := 1, events := [.direction "Enter"] } = [] :=
  speaker_counts_empty_errors { title := "T", url := "u", acts := [] }
    { act_no := 1, scenes := [] }
    { title := "t", act_no := 1, scene_no := 1, events := [.direction "Enter"] } rfl rfl rfl

end Bard
